import Mathlib

/-!
Shallow embedding of `src/homework.py` (fitness-tracker statistics).

Numeric values are modelled over ℚ. The Python source computes with
floats, but every formula is plain field arithmetic plus one floor
division, so ℚ is the faithful exact model of the formulas; the
tolerance named by the spec (1e-9) is subsumed by exact equality. The
`int` annotation on the `action` field is not enforced at runtime
(plain dataclass), so all numeric fields are ℚ here, mirroring the
untyped data flow through `read_package`.
-/

namespace Homework

/-- Class-level constant of `Training` (homework.py line 45):
`LEN_STEP = 0.65`. -/
def Training.LEN_STEP : ℚ := 65/100

/-- Class-level constant of `Training` (line 47): `M_IN_KM = 1000`. -/
def Training.M_IN_KM : ℚ := 1000

/-- Class-level constant of `Training` (line 49): `TIME_CONST = 60`. -/
def Training.TIME_CONST : ℚ := 60

/-- `InfoMessage` dataclass (lines 5-27): fields in declaration order. -/
structure InfoMessage where
  training_type : String
  duration : ℚ
  distance : ℚ
  speed : ℚ
  calories : ℚ
deriving DecidableEq, Repr

/-- Round-half-even on ℚ: the rounding used by the fixed-point format
specifier of Python (ties go to the even integer). -/
def rhe (q : ℚ) : ℤ :=
  if q - ⌊q⌋ < 1/2 then ⌊q⌋
  else if 1/2 < q - ⌊q⌋ then ⌊q⌋ + 1
  else if ⌊q⌋ % 2 = 0 then ⌊q⌋ else ⌊q⌋ + 1

/-- The three digits after the decimal point of a `.3f` rendering:
`n` is the rounded fractional part scaled by 1000 (so `n < 1000`),
printed zero-padded to width three. -/
def padThree (n : ℕ) : String :=
  String.mk [Nat.digitChar (n / 100 % 10), Nat.digitChar (n / 10 % 10),
             Nat.digitChar (n % 10)]

/-- Renders the integer `n` (a value scaled by 1000) as a fixed-point
decimal with three digits after the point. -/
def renderScaled (n : ℤ) : String :=
  (if n < 0 then "-" else "")
    ++ toString (n.natAbs / 1000) ++ "." ++ padThree (n.natAbs % 1000)

/-- Model of the `.3f` format specifier applied to `q`: fixed-point
rendering with exactly three digits after the decimal point, rounding
to nearest (ties to even). -/
def formatFixed3 (q : ℚ) : String := renderScaled (rhe (q * 1000))

/-- `InfoMessage.get_message` (lines 17-27): substitutes the five fields
into the fixed template, each numeric field rendered `.3f`. -/
def InfoMessage.get_message (m : InfoMessage) : String :=
  "Тип тренировки: " ++ m.training_type ++ "; Длительность: "
    ++ formatFixed3 m.duration ++ " ч.; Дистанция: "
    ++ formatFixed3 m.distance ++ " км; Ср. скорость: "
    ++ formatFixed3 m.speed ++ " км/ч; Потрачено ккал: "
    ++ formatFixed3 m.calories ++ "."

/-- `s` contains `pat` as a contiguous substring. -/
def strContains (s pat : String) : Prop :=
  pat.data <:+: s.data

/-- `Running` dataclass (lines 88-99): fields `action, duration, weight`
inherited from `Training`, no new fields. -/
structure Running where
  action : ℚ
  duration : ℚ
  weight : ℚ
deriving DecidableEq, Repr

/-- Running class constant `coeff_calorie_1 = 18` (line 92). -/
def Running.coeff_calorie_1 : ℚ := 18

/-- Running class constant `coeff_calorie_2 = 20` (line 93). -/
def Running.coeff_calorie_2 : ℚ := 20

/-- `Training.get_distance` (lines 55-60) as inherited by `Running`:
`action * LEN_STEP / M_IN_KM` with the base step length 0.65. -/
def Running.get_distance (t : Running) : ℚ :=
  t.action * Training.LEN_STEP / Training.M_IN_KM

/-- `Training.get_mean_speed` (lines 63-67) as inherited by `Running`:
`get_distance() / duration`. -/
def Running.get_mean_speed (t : Running) : ℚ :=
  t.get_distance / t.duration

/-- `Running.get_spent_calories` (lines 95-99). -/
def Running.get_spent_calories (t : Running) : ℚ :=
  (Running.coeff_calorie_1 * t.get_mean_speed - Running.coeff_calorie_2)
    * t.weight / Training.M_IN_KM * t.duration * Training.TIME_CONST

/-- `Training.show_training_info` (lines 75-85) for a `Running` value:
the label is the concrete class name. -/
def Running.show_training_info (t : Running) : InfoMessage :=
  ⟨"Running", t.duration, t.get_distance, t.get_mean_speed,
    t.get_spent_calories⟩

/-- `SportsWalking` dataclass (lines 102-125): fields re-declared in
source order `action, duration, weight, height` (lines 113-116). -/
structure SportsWalking where
  action : ℚ
  duration : ℚ
  weight : ℚ
  height : ℚ
deriving DecidableEq, Repr

/-- SportsWalking class constant `coeff_calorie_1 = 0.035` (line 109). -/
def SportsWalking.coeff_calorie_1 : ℚ := 35/1000

/-- SportsWalking class constant `coeff_calorie_2 = 0.029` (line 110). -/
def SportsWalking.coeff_calorie_2 : ℚ := 29/1000

/-- SportsWalking class constant `coeff_calorie_3 = 2` (line 111), the
exponent in the calorie formula. -/
def SportsWalking.coeff_calorie_3 : ℕ := 2

/-- `Training.get_distance` as inherited by `SportsWalking`. -/
def SportsWalking.get_distance (t : SportsWalking) : ℚ :=
  t.action * Training.LEN_STEP / Training.M_IN_KM

/-- `Training.get_mean_speed` as inherited by `SportsWalking`. -/
def SportsWalking.get_mean_speed (t : SportsWalking) : ℚ :=
  t.get_distance / t.duration

/-- The float floor division `x // y` of Python on exact rationals:
`⌊x / y⌋` coerced back to ℚ. -/
def pyFloorDiv (x y : ℚ) : ℚ := (⌊x / y⌋ : ℤ)

/-- `SportsWalking.get_spent_calories` (lines 118-125):
`(c1*weight + (mean_speed ** c3 // height) * c2 * weight) * 60 * duration`. -/
def SportsWalking.get_spent_calories (t : SportsWalking) : ℚ :=
  (SportsWalking.coeff_calorie_1 * t.weight
    + pyFloorDiv (t.get_mean_speed ^ SportsWalking.coeff_calorie_3) t.height
      * SportsWalking.coeff_calorie_2 * t.weight)
    * Training.TIME_CONST * t.duration

/-- `Training.show_training_info` for a `SportsWalking` value. -/
def SportsWalking.show_training_info (t : SportsWalking) : InfoMessage :=
  ⟨"SportsWalking", t.duration, t.get_distance, t.get_mean_speed,
    t.get_spent_calories⟩

/-- `Swimming` dataclass (lines 128-164): fields re-declared in source
order `action, duration, weight, length_pool, count_pool` (lines 150-154). -/
structure Swimming where
  action : ℚ
  duration : ℚ
  weight : ℚ
  length_pool : ℚ
  count_pool : ℚ
deriving DecidableEq, Repr

/-- Swimming overrides `LEN_STEP = 1.38` (line 146). -/
def Swimming.LEN_STEP : ℚ := 138/100

/-- Swimming class constant `coeff_calorie_1 = 1.1` (line 147). -/
def Swimming.coeff_calorie_1 : ℚ := 11/10

/-- Swimming class constant `coeff_calorie_2 = 2` (line 148). -/
def Swimming.coeff_calorie_2 : ℚ := 2

/-- `Training.get_distance` as inherited by `Swimming`, with the
overridden step length 1.38 (polymorphic `self.LEN_STEP`). -/
def Swimming.get_distance (t : Swimming) : ℚ :=
  t.action * Swimming.LEN_STEP / Training.M_IN_KM

/-- `Swimming.get_mean_speed` (lines 156-159): overrides the base
formula; `length_pool * count_pool / M_IN_KM / duration`. -/
def Swimming.get_mean_speed (t : Swimming) : ℚ :=
  t.length_pool * t.count_pool / Training.M_IN_KM / t.duration

/-- `Swimming.get_spent_calories` (lines 161-164). -/
def Swimming.get_spent_calories (t : Swimming) : ℚ :=
  (t.get_mean_speed + Swimming.coeff_calorie_1)
    * Swimming.coeff_calorie_2 * t.weight

/-- `Training.show_training_info` for a `Swimming` value: the distance
field is the inherited stroke-based `get_distance`, the speed field the
overridden pool-based `get_mean_speed`. -/
def Swimming.show_training_info (t : Swimming) : InfoMessage :=
  ⟨"Swimming", t.duration, t.get_distance, t.get_mean_speed,
    t.get_spent_calories⟩

/-- The value returned by `read_package`: one of the three concrete
`Training` subclasses. -/
inductive TrainingV where
  | swm : Swimming → TrainingV
  | run : Running → TrainingV
  | wlk : SportsWalking → TrainingV
deriving DecidableEq, Repr

/-- Failure modes of `read_package`: the explicit `ValueError` carrying
the offending code (line 186), or the `TypeError` Python raises when
`*data` does not match the constructor arity. -/
inductive PkgError where
  | unknownWorkout (code : String) : PkgError
  | arityError : PkgError
deriving DecidableEq, Repr

/-- The `Swimming(*data)` constructor call: binds `data` positionally to
the dataclass fields in declaration order; wrong arity is a TypeError. -/
def mkSwimming : List ℚ → Except PkgError TrainingV
  | [a, d, w, lp, cp] => .ok (.swm ⟨a, d, w, lp, cp⟩)
  | _ => .error .arityError

/-- The `Running(*data)` constructor call. -/
def mkRunning : List ℚ → Except PkgError TrainingV
  | [a, d, w] => .ok (.run ⟨a, d, w⟩)
  | _ => .error .arityError

/-- The `SportsWalking(*data)` constructor call. -/
def mkSportsWalking : List ℚ → Except PkgError TrainingV
  | [a, d, w, h] => .ok (.wlk ⟨a, d, w, h⟩)
  | _ => .error .arityError

/-- `read_package` (lines 167-187): looks the code up in the fixed
mapping SWM/RUN/WLK, raises ValueError carrying the code otherwise, and
constructs the matching variant from `data`. -/
def read_package (workout_type : String) (data : List ℚ) :
    Except PkgError TrainingV :=
  if workout_type = "SWM" then mkSwimming data
  else if workout_type = "RUN" then mkRunning data
  else if workout_type = "WLK" then mkSportsWalking data
  else .error (.unknownWorkout workout_type)

/-- Checked division: Python raises ZeroDivisionError on division by
zero; `none` models that failure. -/
def qdivChecked (x y : ℚ) : Option ℚ :=
  if y = 0 then none else some (x / y)

/-- Checked floor division: Python raises ZeroDivisionError on floor
division by zero; `none` models that failure. -/
def qfloordivChecked (x y : ℚ) : Option ℚ :=
  if y = 0 then none else some ((⌊x / y⌋ : ℤ) : ℚ)

/-- `Training.get_mean_speed` for `SportsWalking` with the runtime
division-by-zero failure made explicit. -/
def SportsWalking.get_mean_speedChecked (t : SportsWalking) : Option ℚ :=
  qdivChecked t.get_distance t.duration

/-- `SportsWalking.get_spent_calories` with the runtime
division-by-zero failures made explicit, in evaluation order: the
mean-speed call divides by `duration`, then the squared speed is
floor-divided by `height`. -/
def SportsWalking.get_spent_caloriesChecked (t : SportsWalking) :
    Option ℚ := do
  let s ← t.get_mean_speedChecked
  let f ← qfloordivChecked (s ^ SportsWalking.coeff_calorie_3) t.height
  pure ((SportsWalking.coeff_calorie_1 * t.weight
    + f * SportsWalking.coeff_calorie_2 * t.weight)
    * Training.TIME_CONST * t.duration)


/-! ## Helper lemmas -/

theorem rhe_intCast (n : ℤ) : rhe (n : ℚ) = n := by
  simp [rhe]

theorem formatFixed3_of_int (q : ℚ) (n : ℤ) (h : q * 1000 = (n : ℚ)) :
    formatFixed3 q = renderScaled n := by
  rw [formatFixed3, h, rhe_intCast]

theorem run_sample_distance : Running.get_distance ⟨15000, 1, 75⟩ = 39/4 := by
  norm_num [Running.get_distance, Training.LEN_STEP, Training.M_IN_KM]

theorem run_sample_speed : Running.get_mean_speed ⟨15000, 1, 75⟩ = 39/4 := by
  norm_num [Running.get_mean_speed, run_sample_distance]

theorem run_sample_calories :
    Running.get_spent_calories ⟨15000, 1, 75⟩ = 2799/4 := by
  norm_num [Running.get_spent_calories, run_sample_speed,
    Running.coeff_calorie_1, Running.coeff_calorie_2,
    Training.M_IN_KM, Training.TIME_CONST]

set_option maxRecDepth 8192 in
theorem run_sample_message :
    (Running.show_training_info ⟨15000, 1, 75⟩).get_message =
    "Тип тренировки: Running; Длительность: 1.000 ч.; Дистанция: 9.750 км; Ср. скорость: 9.750 км/ч; Потрачено ккал: 699.750." := by
  simp only [Running.show_training_info, InfoMessage.get_message,
    run_sample_distance, run_sample_speed, run_sample_calories]
  rw [formatFixed3_of_int 1 1000 (by norm_num),
    formatFixed3_of_int (39/4) 9750 (by norm_num),
    formatFixed3_of_int (2799/4) 699750 (by norm_num)]
  decide

/-! ## Claim theorems -/

set_option maxRecDepth 8192 in
/-- C1 (counterexample): for input RUN [15000, 1, 75] the calorie value
is 2799/4 = 699.75, not 700.65, and the rendered message does not
contain the fragment with 700.650 the claim names. -/
theorem C1_counterexample :
    Running.get_spent_calories ⟨15000, 1, 75⟩ = 2799/4 ∧
    (2799/4 : ℚ) ≠ 70065/100 ∧
    ¬ strContains ((Running.show_training_info ⟨15000, 1, 75⟩).get_message)
        "Потрачено ккал: 700.650." := by
  refine ⟨run_sample_calories, by norm_num, ?_⟩
  rw [strContains, run_sample_message]
  decide

set_option maxRecDepth 8192 in
/-- C1 (amended): for the input RUN [15000, 1, 75] the pipeline produces
distance = 9.750 km, mean speed = 9.750 km/h, calories = 699.75, and the
rendered message contains the fragment ending with 699.750. -/
theorem C1_run_pipeline :
    Running.get_distance ⟨15000, 1, 75⟩ = 39/4 ∧
    Running.get_mean_speed ⟨15000, 1, 75⟩ = 39/4 ∧
    Running.get_spent_calories ⟨15000, 1, 75⟩ = 2799/4 ∧
    strContains ((Running.show_training_info ⟨15000, 1, 75⟩).get_message)
      "Длительность: 1.000 ч.; Дистанция: 9.750 км; Ср. скорость: 9.750 км/ч; Потрачено ккал: 699.750." := by
  refine ⟨run_sample_distance, run_sample_speed, run_sample_calories, ?_⟩
  rw [strContains, run_sample_message]
  decide

/-- C2 (counterexample): two Running instances equal except for a larger
weight, with equal mean speed 0.65 km/h, where the calorie value
strictly decreases: the factor 18 * speed - 20 is negative there. -/
theorem C2_counterexample :
    Running.get_mean_speed ⟨1000, 1, 10⟩ =
      Running.get_mean_speed ⟨1000, 1, 20⟩ ∧
    (10 : ℚ) < 20 ∧
    Running.get_spent_calories ⟨1000, 1, 20⟩ <
      Running.get_spent_calories ⟨1000, 1, 10⟩ := by
  norm_num [Running.get_mean_speed, Running.get_distance,
    Running.get_spent_calories, Running.coeff_calorie_1,
    Running.coeff_calorie_2, Training.LEN_STEP, Training.M_IN_KM,
    Training.TIME_CONST]

/-- C2 (amended): holding the mean speed fixed, the calorie value is
non-decreasing in weight whenever the factor multiplying the weight is
nonnegative: for Running when 18 * mean speed is at least 20 and the
duration is nonnegative, and for Swimming when mean speed + 1.1 is
nonnegative. -/
theorem C2_weight_monotone :
    (∀ r₁ r₂ : Running, r₁.action = r₂.action → r₁.duration = r₂.duration →
      r₁.weight ≤ r₂.weight → 20 ≤ 18 * r₁.get_mean_speed →
      0 ≤ r₁.duration →
      r₁.get_spent_calories ≤ r₂.get_spent_calories) ∧
    (∀ s₁ s₂ : Swimming, s₁.duration = s₂.duration →
      s₁.length_pool = s₂.length_pool → s₁.count_pool = s₂.count_pool →
      s₁.weight ≤ s₂.weight → 0 ≤ s₁.get_mean_speed + 11/10 →
      s₁.get_spent_calories ≤ s₂.get_spent_calories) := by
  constructor
  · intro r₁ r₂ ha hd hw hsp hdur
    have hsame : r₁.get_mean_speed = r₂.get_mean_speed := by
      rw [Running.get_mean_speed, Running.get_mean_speed,
        Running.get_distance, Running.get_distance, ha, hd]
    rw [Running.get_spent_calories, Running.get_spent_calories, ← hsame,
      ← hd, Running.coeff_calorie_1, Running.coeff_calorie_2,
      Training.M_IN_KM, Training.TIME_CONST]
    have h1 : 0 ≤ 18 * r₁.get_mean_speed - 20 := by linarith
    have h2 : 0 ≤ (18 * r₁.get_mean_speed - 20) * (r₂.weight - r₁.weight)
        * r₁.duration :=
      mul_nonneg (mul_nonneg h1 (by linarith)) hdur
    nlinarith [h2]
  · intro s₁ s₂ hd hl hc hw hsp
    have hsame : s₁.get_mean_speed = s₂.get_mean_speed := by
      rw [Swimming.get_mean_speed, Swimming.get_mean_speed, hd, hl, hc]
    rw [Swimming.get_spent_calories, Swimming.get_spent_calories, ← hsame,
      Swimming.coeff_calorie_1, Swimming.coeff_calorie_2]
    nlinarith [mul_nonneg hsp (sub_nonneg.mpr hw)]

/-- Witness for C2: concrete applications at the driver samples with a
heavier second athlete. -/
theorem C2_weight_monotone_witness :
    Running.get_spent_calories ⟨15000, 1, 75⟩ ≤
      Running.get_spent_calories ⟨15000, 1, 80⟩ ∧
    Swimming.get_spent_calories ⟨720, 1, 80, 25, 40⟩ ≤
      Swimming.get_spent_calories ⟨720, 1, 85, 25, 40⟩ :=
  ⟨C2_weight_monotone.1 ⟨15000, 1, 75⟩ ⟨15000, 1, 80⟩ rfl rfl (by norm_num)
      (by norm_num [run_sample_speed]) (by norm_num),
   C2_weight_monotone.2 ⟨720, 1, 80, 25, 40⟩ ⟨720, 1, 85, 25, 40⟩ rfl rfl rfl
      (by norm_num)
      (by norm_num [Swimming.get_mean_speed, Training.M_IN_KM])⟩

/-- C3: for every SportsWalking instance with nonzero height and
duration, the calorie value equals the spec formula: exponentiation
first, then floor division (not true division) by height. -/
theorem C3_walking_calories (t : SportsWalking) (_hh : t.height ≠ 0)
    (_hd : t.duration ≠ 0) :
    t.get_spent_calories =
      ((35/1000) * t.weight
        + ((⌊t.get_mean_speed ^ 2 / t.height⌋ : ℤ) : ℚ)
          * (29/1000) * t.weight)
        * 60 * t.duration := by
  rw [SportsWalking.get_spent_calories, pyFloorDiv,
    SportsWalking.coeff_calorie_1, SportsWalking.coeff_calorie_2,
    SportsWalking.coeff_calorie_3, Training.TIME_CONST]

/-- Witness for C3 at the driver sample WLK [9000, 1, 75, 180]. -/
theorem C3_walking_calories_witness :
    (⟨9000, 1, 75, 180⟩ : SportsWalking).get_spent_calories =
      ((35/1000) * (⟨9000, 1, 75, 180⟩ : SportsWalking).weight
        + ((⌊(⟨9000, 1, 75, 180⟩ : SportsWalking).get_mean_speed ^ 2
              / (⟨9000, 1, 75, 180⟩ : SportsWalking).height⌋ : ℤ) : ℚ)
          * (29/1000) * (⟨9000, 1, 75, 180⟩ : SportsWalking).weight)
        * 60 * (⟨9000, 1, 75, 180⟩ : SportsWalking).duration :=
  C3_walking_calories ⟨9000, 1, 75, 180⟩ (by norm_num) (by norm_num)

theorem mkSwimming_ne_unknown (data : List ℚ) (c : String) :
    mkSwimming data ≠ .error (.unknownWorkout c) := by
  unfold mkSwimming
  split <;> simp

theorem mkRunning_ne_unknown (data : List ℚ) (c : String) :
    mkRunning data ≠ .error (.unknownWorkout c) := by
  unfold mkRunning
  split <;> simp

theorem mkSportsWalking_ne_unknown (data : List ℚ) (c : String) :
    mkSportsWalking data ≠ .error (.unknownWorkout c) := by
  unfold mkSportsWalking
  split <;> simp

/-- C4: read_package fails with the unknown-workout error, carrying the
offending code, exactly when the code is not SWM/RUN/WLK; for the three
known codes the data is bound positionally to the dataclass fields in
declaration order. -/
theorem C4_read_package :
    (∀ code data, (∃ c, read_package code data =
        .error (.unknownWorkout c)) ↔
      (code ≠ "SWM" ∧ code ≠ "RUN" ∧ code ≠ "WLK")) ∧
    (∀ code data c, read_package code data = .error (.unknownWorkout c) →
      c = code) ∧
    (∀ a d w lp cp, read_package "SWM" [a, d, w, lp, cp] =
      .ok (.swm ⟨a, d, w, lp, cp⟩)) ∧
    (∀ a d w, read_package "RUN" [a, d, w] = .ok (.run ⟨a, d, w⟩)) ∧
    (∀ a d w h, read_package "WLK" [a, d, w, h] =
      .ok (.wlk ⟨a, d, w, h⟩)) ∧
    read_package "SWM" [720, 1, 80, 25, 40] =
      .ok (.swm ⟨720, 1, 80, 25, 40⟩) ∧
    read_package "XYZ" [] = .error (.unknownWorkout "XYZ") := by
  refine ⟨?_, ?_, fun a d w lp cp => rfl, fun a d w => rfl,
    fun a d w h => rfl, rfl, rfl⟩
  · intro code data
    by_cases h1 : code = "SWM"
    · subst h1
      simp [read_package, mkSwimming_ne_unknown]
    · by_cases h2 : code = "RUN"
      · subst h2
        simp [read_package, mkRunning_ne_unknown]
      · by_cases h3 : code = "WLK"
        · subst h3
          simp [read_package, mkSportsWalking_ne_unknown]
        · simp [read_package, h1, h2, h3]
  · intro code data c h
    by_cases h1 : code = "SWM"
    · subst h1
      simp [read_package, mkSwimming_ne_unknown] at h
    · by_cases h2 : code = "RUN"
      · subst h2
        simp [read_package, mkRunning_ne_unknown] at h
      · by_cases h3 : code = "WLK"
        · subst h3
          simp [read_package, mkSportsWalking_ne_unknown] at h
        · simp [read_package, h1, h2, h3] at h
          exact h.symm

/-- Witness for C4: the unknown-code case at XYZ. -/
theorem C4_read_package_witness :
    ∃ c, read_package "XYZ" [] = .error (.unknownWorkout c) :=
  (C4_read_package.1 "XYZ" []).mpr ⟨by decide, by decide, by decide⟩

/-- C5: Swimming speed and calories ignore the action count entirely;
the speed is the pool-based formula. -/
theorem C5_swimming_ignores_action :
    (∀ s₁ s₂ : Swimming, s₁.duration = s₂.duration → s₁.weight = s₂.weight →
      s₁.length_pool = s₂.length_pool → s₁.count_pool = s₂.count_pool →
      s₁.get_mean_speed = s₂.get_mean_speed ∧
      s₁.get_spent_calories = s₂.get_spent_calories) ∧
    (∀ s : Swimming, s.get_mean_speed =
      s.length_pool * s.count_pool / 1000 / s.duration) := by
  constructor
  · intro s₁ s₂ hd hw hl hc
    have hsp : s₁.get_mean_speed = s₂.get_mean_speed := by
      rw [Swimming.get_mean_speed, Swimming.get_mean_speed, hd, hl, hc]
    refine ⟨hsp, ?_⟩
    rw [Swimming.get_spent_calories, Swimming.get_spent_calories, hsp, hw]
  · intro s
    rw [Swimming.get_mean_speed, Training.M_IN_KM]

/-- Witness for C5: two instances differing only in the action count. -/
theorem C5_swimming_ignores_action_witness :
    Swimming.get_mean_speed ⟨720, 1, 80, 25, 40⟩ =
      Swimming.get_mean_speed ⟨9999, 1, 80, 25, 40⟩ ∧
    Swimming.get_spent_calories ⟨720, 1, 80, 25, 40⟩ =
      Swimming.get_spent_calories ⟨9999, 1, 80, 25, 40⟩ :=
  C5_swimming_ignores_action.1 ⟨720, 1, 80, 25, 40⟩ ⟨9999, 1, 80, 25, 40⟩
    rfl rfl rfl rfl

/-- C6: for all three variants, distance times 1000 equals action times
the step length of the variant (0.65, 0.65, 1.38), exactly. -/
theorem C6_distance_step :
    (∀ r : Running, r.get_distance * 1000 = r.action * (65/100)) ∧
    (∀ t : SportsWalking, t.get_distance * 1000 = t.action * (65/100)) ∧
    (∀ s : Swimming, s.get_distance * 1000 = s.action * (138/100)) := by
  refine ⟨fun r => ?_, fun t => ?_, fun s => ?_⟩
  · rw [Running.get_distance, Training.LEN_STEP, Training.M_IN_KM]
    ring
  · rw [SportsWalking.get_distance, Training.LEN_STEP, Training.M_IN_KM]
    ring
  · rw [Swimming.get_distance, Swimming.LEN_STEP, Training.M_IN_KM]
    ring

/-- C7: Running calories equal the spec formula, with no clamping; the
concrete low-speed instance RUN [1000, 1, 10] yields a negative value. -/
theorem C7_running_calories :
    (∀ r : Running, r.duration ≠ 0 → r.get_spent_calories =
      (18 * r.get_mean_speed - 20) * r.weight / 1000 * r.duration * 60) ∧
    Running.get_spent_calories ⟨1000, 1, 10⟩ < 0 := by
  constructor
  · intro r _
    rw [Running.get_spent_calories, Running.coeff_calorie_1,
      Running.coeff_calorie_2, Training.M_IN_KM, Training.TIME_CONST]
  · norm_num [Running.get_spent_calories, Running.get_mean_speed,
      Running.get_distance, Running.coeff_calorie_1,
      Running.coeff_calorie_2, Training.LEN_STEP, Training.M_IN_KM,
      Training.TIME_CONST]

/-- Witness for C7 at the driver sample RUN [15000, 1, 75]. -/
theorem C7_running_calories_witness :
    Running.get_spent_calories ⟨15000, 1, 75⟩ =
      (18 * Running.get_mean_speed ⟨15000, 1, 75⟩ - 20)
        * (⟨15000, 1, 75⟩ : Running).weight / 1000
        * (⟨15000, 1, 75⟩ : Running).duration * 60 :=
  C7_running_calories.1 ⟨15000, 1, 75⟩ (by norm_num)

theorem rhe_nearest (x : ℚ) : |x - (rhe x : ℚ)| ≤ 1/2 := by
  unfold rhe
  have h0 : (⌊x⌋ : ℚ) ≤ x := Int.floor_le x
  have h1 : x < ⌊x⌋ + 1 := Int.lt_floor_add_one x
  split_ifs with hlt hgt hev
  · rw [abs_le]
    constructor <;> linarith
  · rw [abs_le]
    constructor <;> [skip; skip] <;> push_cast <;> linarith
  · rw [abs_le]
    constructor <;> linarith
  · rw [abs_le]
    constructor <;> push_cast <;> linarith

/-- C8: the message is the fixed template in field order (label,
duration, distance, speed, calories); each numeric value is the scaled
integer rounded to nearest (not truncated), printed with exactly three
digits after the point; trailing zeros are kept (9.75 prints as
9.750). -/
theorem C8_message_format :
    (∀ m : InfoMessage, m.get_message =
      "Тип тренировки: " ++ m.training_type ++ "; Длительность: "
        ++ formatFixed3 m.duration ++ " ч.; Дистанция: "
        ++ formatFixed3 m.distance ++ " км; Ср. скорость: "
        ++ formatFixed3 m.speed ++ " км/ч; Потрачено ккал: "
        ++ formatFixed3 m.calories ++ ".") ∧
    (∀ q : ℚ, |q * 1000 - (rhe (q * 1000) : ℚ)| ≤ 1/2) ∧
    (∀ n : ℕ, (padThree n).length = 3) ∧
    formatFixed3 (39/4) = "9.750" := by
  refine ⟨fun m => rfl, fun q => rhe_nearest (q * 1000), fun n => rfl, ?_⟩
  rw [formatFixed3_of_int (39/4) 9750 (by norm_num)]
  decide

/-- C9: the walking calorie computation, with the runtime
division-by-zero failures made explicit, fails whenever height is zero
(the floor division is unguarded); with nonzero height and nonzero
duration it succeeds with the total value, so the failure branch is
unreachable under those preconditions. -/
theorem C9_walking_zero_height :
    (∀ t : SportsWalking, t.height = 0 →
      t.get_spent_caloriesChecked = none) ∧
    (∀ t : SportsWalking, t.height ≠ 0 → t.duration ≠ 0 →
      t.get_spent_caloriesChecked = some t.get_spent_calories) := by
  constructor
  · intro t hh
    by_cases hd : t.duration = 0
    · simp [SportsWalking.get_spent_caloriesChecked,
        SportsWalking.get_mean_speedChecked, qdivChecked, hd]
    · simp [SportsWalking.get_spent_caloriesChecked,
        SportsWalking.get_mean_speedChecked, qdivChecked,
        qfloordivChecked, hd, hh]
  · intro t hh hd
    simp [SportsWalking.get_spent_caloriesChecked,
      SportsWalking.get_mean_speedChecked, qdivChecked, qfloordivChecked,
      hd, hh, SportsWalking.get_spent_calories, pyFloorDiv,
      SportsWalking.get_mean_speed]

/-- Witness for C9: the walking sample fails at height 0 and succeeds at
height 180. -/
theorem C9_walking_zero_height_witness :
    SportsWalking.get_spent_caloriesChecked ⟨9000, 1, 75, 0⟩ = none ∧
    SportsWalking.get_spent_caloriesChecked ⟨9000, 1, 75, 180⟩ =
      some (SportsWalking.get_spent_calories ⟨9000, 1, 75, 180⟩) :=
  ⟨C9_walking_zero_height.1 ⟨9000, 1, 75, 0⟩ rfl,
   C9_walking_zero_height.2 ⟨9000, 1, 75, 180⟩ (by norm_num) (by norm_num)⟩

/-- C10: the Swimming info message stores the stroke-based distance,
independent of the pool fields, and the pool-based speed; the identity
distance = speed * duration fails at the swimming driver sample but
holds for Running and SportsWalking with nonzero duration. -/
theorem C10_swimming_distance_independent :
    (∀ s : Swimming, (s.show_training_info).distance =
      s.action * (138/100) / 1000) ∧
    (∀ s₁ s₂ : Swimming, s₁.action = s₂.action →
      (s₁.show_training_info).distance = (s₂.show_training_info).distance) ∧
    ((Swimming.show_training_info ⟨720, 1, 80, 25, 40⟩).distance =
        621/625 ∧
      (Swimming.show_training_info ⟨720, 1, 80, 25, 40⟩).speed *
        (⟨720, 1, 80, 25, 40⟩ : Swimming).duration = 1 ∧
      (621/625 : ℚ) ≠ 1) ∧
    (∀ r : Running, r.duration ≠ 0 →
      (r.show_training_info).distance =
        (r.show_training_info).speed * r.duration) ∧
    (∀ t : SportsWalking, t.duration ≠ 0 →
      (t.show_training_info).distance =
        (t.show_training_info).speed * t.duration) := by
  refine ⟨fun s => ?_, fun s₁ s₂ ha => ?_, ⟨?_, ?_, by norm_num⟩,
    fun r hr => ?_, fun t ht => ?_⟩
  · rw [Swimming.show_training_info]
    rw [Swimming.get_distance, Swimming.LEN_STEP, Training.M_IN_KM]
  · rw [Swimming.show_training_info, Swimming.show_training_info]
    rw [Swimming.get_distance, Swimming.get_distance, ha]
  · norm_num [Swimming.show_training_info, Swimming.get_distance,
      Swimming.LEN_STEP, Training.M_IN_KM]
  · norm_num [Swimming.show_training_info, Swimming.get_mean_speed,
      Training.M_IN_KM]
  · show r.get_distance = r.get_mean_speed * r.duration
    rw [Running.get_mean_speed, div_mul_cancel₀ _ hr]
  · show t.get_distance = t.get_mean_speed * t.duration
    rw [SportsWalking.get_mean_speed, div_mul_cancel₀ _ ht]

/-- Witness for C10: the identity at the running driver sample. -/
theorem C10_swimming_distance_independent_witness :
    (Running.show_training_info ⟨15000, 1, 75⟩).distance =
      (Running.show_training_info ⟨15000, 1, 75⟩).speed *
        (⟨15000, 1, 75⟩ : Running).duration :=
  C10_swimming_distance_independent.2.2.2.1 ⟨15000, 1, 75⟩ (by norm_num)

end Homework
